import Mathlib

/-!
Shallow embedding of the feedback API of the `main12-next-app` repository.

The embedded code lives in:
* `src/unnamed/part_000` — the `/api/support` route (POST with ticket
  generation, status validation and file uploads; GET with the filtered,
  paginated listing query builder);
* `src/src/app/api/support/[id]/route.ts` — GET / PATCH / DELETE by id;
* `src/src/app/api/support/init/route.ts` — schema creation, in particular
  the `feedback_status` Postgres enum.

JavaScript strings that may be absent (`searchParams.get`, destructured JSON
body fields) are modelled as `Option String`; JavaScript truthiness of such
a value (`if (app) { ... }`) is `jsTruthy`.  All `Date.now()` calls inside a
single request are modelled with one instant `now : Nat`.  The Postgres
database is a list of rows plus the live label set of the `feedback_status`
enum; every executed statement is recorded in a trace so that "no mutating
statement is issued" is a statement about the model, not a convention.
-/

/-- JSON values, as sent in request bodies and stored in `data` / `notes`. -/
inductive Json where
  | null : Json
  | bool : Bool → Json
  | num : Int → Json
  | str : String → Json
  | arr : List Json → Json
  | obj : List (String × Json) → Json

/-- JavaScript truthiness of a JSON value (`if (data) { ... }`). -/
def Json.truthy : Json → Bool
  | .null => false
  | .bool b => b
  | .num n => n != 0
  | .str s => !s.isEmpty
  | .arr _ => true
  | .obj _ => true

mutual

/-- `JSON.stringify`, string escaping elided (no claim inspects it). -/
def Json.serialize : Json → String
  | .null => "null"
  | .bool true => "true"
  | .bool false => "false"
  | .num n => toString n
  | .str s => "\"" ++ s ++ "\""
  | .arr xs => "[" ++ Json.serializeList xs ++ "]"
  | .obj kvs => "\x7b" ++ Json.serializeObj kvs ++ "\x7d"

/-- Serialize the elements of a JSON array, comma separated. -/
def Json.serializeList : List Json → String
  | [] => ""
  | [x] => Json.serialize x
  | x :: xs => Json.serialize x ++ "," ++ Json.serializeList xs

/-- Serialize the members of a JSON object, comma separated. -/
def Json.serializeObj : List (String × Json) → String
  | [] => ""
  | [(k, v)] => "\"" ++ k ++ "\":" ++ Json.serialize v
  | (k, v) :: kvs => "\"" ++ k ++ "\":" ++ Json.serialize v ++ "," ++ Json.serializeObj kvs

end

/-- JavaScript truthiness of a possibly-absent string field:
`null`/`undefined` and `""` are falsy. -/
def jsTruthy : Option String → Bool
  | none => false
  | some s => !s.isEmpty

/-- `x || d` on a possibly-absent string. -/
def jsOr (o : Option String) (d : String) : String :=
  match o with
  | none => d
  | some s => if s.isEmpty then d else s

/-- A value bound to a positional placeholder of a parameterized query. -/
inductive SqlValue where
  | str : String → SqlValue
  | int : Int → SqlValue
deriving DecidableEq, Repr

/-- A row of the `feedback` table
(`src/src/app/api/support/init/route.ts`, `CREATE TABLE feedback`). -/
structure FeedbackRecord where
  id : String
  app : String
  type_ : String
  title : String
  status : String
  data : Json
  notes : Json
  created_at : Nat
  modified_at : Nat

/-- The labels of the `feedback_status` Postgres enum created by
`POST /api/support/init` (`CREATE TYPE feedback_status AS ENUM (...)`). -/
def feedbackStatusEnum : List String :=
  ["pending", "new",
   "inReview", "triaged",
   "inProgress", "planned", "blocked", "needsInfo",
   "resolved", "completed", "verified", "deployed",
   "closed", "duplicate", "wontFix", "invalid",
   "migrated", "archived", "reopened", "ok"]

/-- The database: the `feedback` rows and the live label set of the
`feedback_status` enum (queried via `pg_enum` by the routes). -/
structure Db where
  rows : List FeedbackRecord
  statusEnum : List String

/-- Look a row up by primary key (`WHERE id = $1`). -/
def Db.lookup (db : Db) (i : String) : Option FeedbackRecord :=
  db.rows.find? (fun r => r.id == i)

/-- The kind of a SQL statement sent through `executeQuery`. -/
inductive StmtKind where
  | select : StmtKind
  | insert : StmtKind
  | update : StmtKind
  | delete : StmtKind
deriving DecidableEq, Repr

/-- A mutating statement kind (anything but a SELECT). -/
def StmtKind.mutating : StmtKind → Bool
  | .select => false
  | _ => true

/-! ## The filtered listing query builder (`GET /api/support`, part_000) -/

/-- One `AND`-joined predicate of the listing query: a column, a SQL
operator (`=` or `ILIKE`) and the positional placeholder it consumes. -/
structure Cond where
  col : String
  op : String
  idx : Nat
deriving DecidableEq, Repr

/-- Render a predicate the way the route concatenates it
(e.g. `app = $1`, `title ILIKE $4`). -/
def Cond.render (c : Cond) : String :=
  c.col ++ " " ++ c.op ++ " $" ++ toString c.idx

/-- The mutable builder state of the route: the `conditions` array, the
`values` array and the `paramIndex` counter (initially 1). -/
structure QB where
  conditions : List Cond
  values : List SqlValue
  paramIndex : Nat
deriving DecidableEq, Repr

/-- `if (x) { conditions.push(col + " = $" + paramIndex); values.push(x); paramIndex++ }` -/
def QB.addEq (qb : QB) (field : Option String) (col : String) : QB :=
  if jsTruthy field then
    { conditions := qb.conditions ++ [⟨col, "=", qb.paramIndex⟩],
      values := qb.values ++ [.str (jsOr field "")],
      paramIndex := qb.paramIndex + 1 }
  else qb

/-- `if (titleSearch) { conditions.push("title ILIKE $" + paramIndex); values.push("%"+titleSearch+"%"); paramIndex++ }` -/
def QB.addTitleIlike (qb : QB) (field : Option String) : QB :=
  if jsTruthy field then
    { conditions := qb.conditions ++ [⟨"title", "ILIKE", qb.paramIndex⟩],
      values := qb.values ++ [.str ("%" ++ jsOr field "" ++ "%")],
      paramIndex := qb.paramIndex + 1 }
  else qb

/-- The query parameters of `GET /api/support`: the four optional filters
and the parsed `limit` (default 50) and `offset` (default 0). -/
structure ListParams where
  app : Option String
  type_ : Option String
  status : Option String
  title : Option String
  limit : Int
  offset : Int
deriving DecidableEq, Repr

/-- The built listing query: the SQL text, the structured predicates, the
bound values, and the placeholder indices consumed by LIMIT and OFFSET. -/
structure ListQuery where
  sql : String
  conds : List Cond
  values : List SqlValue
  limitIdx : Nat
  offsetIdx : Nat
deriving DecidableEq, Repr

/-- The fixed SELECT the listing query starts from. -/
def listSelect : String :=
  "SELECT id, app, type, title, status, data, notes, created_at, modified_at FROM feedback"

/-- The listing query builder of `GET /api/support`
(`src/unnamed/part_000`, lines 445–483): append the `app`, `type`,
`status` and `title ILIKE` predicates for the provided (truthy) filters in
that order, each consuming the next positional placeholder, then append
`ORDER BY created_at DESC LIMIT $n OFFSET $n+1` and push `limit`, `offset`. -/
def buildListQuery (p : ListParams) : ListQuery :=
  let qb : QB := ⟨[], [], 1⟩
  let qb := qb.addEq p.app "app"
  let qb := qb.addEq p.type_ "type"
  let qb := qb.addEq p.status "status"
  let qb := qb.addTitleIlike p.title
  let whereClause :=
    if qb.conditions.length > 0 then
      " WHERE " ++ String.intercalate " AND " (qb.conditions.map Cond.render)
    else ""
  { sql := listSelect ++ whereClause ++
      " ORDER BY created_at DESC LIMIT $" ++ toString qb.paramIndex ++
      " OFFSET $" ++ toString (qb.paramIndex + 1),
    conds := qb.conditions,
    values := qb.values ++ [.int p.limit, .int p.offset],
    limitIdx := qb.paramIndex,
    offsetIdx := qb.paramIndex + 1 }

/-- How many of the four optional filters are provided (truthy). -/
def numProvidedFilters (p : ListParams) : Nat :=
  (if jsTruthy p.app then 1 else 0) + (if jsTruthy p.type_ then 1 else 0) +
  (if jsTruthy p.status then 1 else 0) + (if jsTruthy p.title then 1 else 0)

/-! ## Postgres semantics of the listing query -/

/-- SQL `LIKE` pattern matching over character lists
(`%` matches any sequence, `_` any single character). -/
def likeMatch : List Char → List Char → Bool
  | [], [] => true
  | [], _ :: _ => false
  | '%' :: ps, [] => likeMatch ps []
  | '%' :: ps, c :: s => likeMatch ps (c :: s) || likeMatch ('%' :: ps) s
  | '_' :: ps, _ :: s => likeMatch ps s
  | p :: ps, c :: s => p == c && likeMatch ps s
  | _ :: _, [] => false
termination_by p s => (p.length, s.length)

/-- Case-insensitive `ILIKE`: lowercase both sides, then `LIKE`-match. -/
def ilikeMatch (pat s : String) : Bool :=
  likeMatch pat.toLower.toList s.toLower.toList

/-- Read the column of a row named by a predicate (only the four filtered
columns can occur in the listing query). -/
def FeedbackRecord.colStr (r : FeedbackRecord) : String → Option String
  | "app" => some r.app
  | "type" => some r.type_
  | "status" => some r.status
  | "title" => some r.title
  | _ => none

/-- Evaluate one predicate of the listing query on a row: fetch the bound
value through the predicate's positional placeholder. -/
def evalCond (vals : List SqlValue) (c : Cond) (r : FeedbackRecord) : Bool :=
  match vals.getD (c.idx - 1) (.str ""), r.colStr c.col with
  | .str v, some field =>
    match c.op with
    | "=" => field == v
    | "ILIKE" => ilikeMatch v field
    | _ => false
  | _, _ => false

/-- The `ORDER BY created_at DESC` ordering: newest first. -/
def createdDesc (a b : FeedbackRecord) : Prop :=
  b.created_at ≤ a.created_at

instance : DecidableRel createdDesc :=
  fun a b => Nat.decLe b.created_at a.created_at

instance : IsTotal FeedbackRecord createdDesc :=
  ⟨fun a b => Nat.le_total b.created_at a.created_at⟩

instance : IsTrans FeedbackRecord createdDesc :=
  ⟨fun _ _ _ hab hbc => Nat.le_trans hbc hab⟩

/-- Sort rows by `created_at` descending (`ORDER BY created_at DESC`). -/
def sortByCreatedDesc (l : List FeedbackRecord) : List FeedbackRecord :=
  l.insertionSort createdDesc

/-- Execute the built listing query on the database: keep the rows matching
every predicate, order them newest-first, then apply OFFSET and LIMIT
(Postgres rejects negative LIMIT/OFFSET arguments, hence `none`). The
LIMIT and OFFSET counts are read back through their placeholder indices. -/
def execListQuery (db : Db) (q : ListQuery) : Option (List FeedbackRecord) :=
  match q.values.getD (q.limitIdx - 1) (.str ""), q.values.getD (q.offsetIdx - 1) (.str "") with
  | .int lim, .int off =>
    if lim < 0 ∨ off < 0 then none
    else
      let matching := db.rows.filter (fun r => q.conds.all (fun c => evalCond q.values c r))
      some (((sortByCreatedDesc matching).drop off.toNat).take lim.toNat)
  | _, _ => none

/-- The pagination metadata returned by `GET /api/support`. -/
structure Pagination where
  limit : Int
  offset : Int
  hasMore : Bool
deriving DecidableEq, Repr

/-- The JSON response of `GET /api/support`. -/
inductive ListResp where
  | ok : List FeedbackRecord → Int → Pagination → ListResp
  | error500 : ListResp

/-- `GET /api/support` (`src/unnamed/part_000`, lines 429–510): build the
filtered query, execute it, and answer with the rows, their count and
`hasMore = (rowCount == limit)`; a failing statement is caught and answered
with a 500 error. -/
def listFeedback (db : Db) (p : ListParams) : ListResp :=
  let q := buildListQuery p
  match execListQuery db q with
  | none => .error500
  | some rows =>
    .ok rows (rows.length : Int)
      { limit := p.limit, offset := p.offset, hasMore := (rows.length : Int) == p.limit }

/-! ## By-id routes (`src/src/app/api/support/[id]/route.ts`) -/

/-- The JSON response of `GET /api/support/[id]`. -/
inductive GetResp where
  | notFound : GetResp
  | ok : FeedbackRecord → GetResp

/-- What a by-id handler run produced: the response, the database after the
run, and the trace of statements it issued. -/
structure GetOut where
  resp : GetResp
  db : Db
  trace : List StmtKind

/-- `GET /api/support/[id]` (lines 42–75): one SELECT keyed on id;
`rowCount === 0` answers 404, otherwise the row is returned. -/
def getFeedbackById (db : Db) (i : String) : GetOut :=
  match db.lookup i with
  | none => { resp := .notFound, db := db, trace := [.select] }
  | some r => { resp := .ok r, db := db, trace := [.select] }

/-- The JSON body of `PATCH /api/support/[id]`
(`const { type, title, status, data, notes } = await request.json()`). -/
structure PatchBody where
  type_ : Option String
  title : Option String
  status : Option String
  data : Option Json
  notes : Option Json

/-- JavaScript truthiness of a possibly-absent JSON field. -/
def jsTruthyJson : Option Json → Bool
  | none => false
  | some j => j.truthy

/-- The JSON response of `PATCH /api/support/[id]`. -/
inductive PatchResp where
  | notFound : PatchResp
  | invalidStatus : PatchResp
  | ok : String → String → String → Nat → PatchResp

/-- What a PATCH run produced: the response, the database after the run,
the statement trace, the SET-clause columns in order, and the bound values
of the UPDATE (ending with the id for the WHERE clause). -/
structure PatchOut where
  resp : PatchResp
  db : Db
  trace : List StmtKind
  setCols : List String
  values : List SqlValue

/-- Apply the provided (truthy) PATCH fields to a row and stamp
`modified_at = CURRENT_TIMESTAMP`. -/
def applyPatch (b : PatchBody) (now : Nat) (r : FeedbackRecord) : FeedbackRecord :=
  { r with
    status := if jsTruthy b.status then (jsOr b.status r.status) else r.status,
    type_ := if jsTruthy b.type_ then (jsOr b.type_ r.type_) else r.type_,
    title := if jsTruthy b.title then (jsOr b.title r.title) else r.title,
    data := if jsTruthyJson b.data then (b.data.getD r.data) else r.data,
    notes := if jsTruthyJson b.notes then (b.notes.getD r.notes) else r.notes,
    modified_at := now }

/-- `PATCH /api/support/[id]` (lines 120–222): check existence (404 when
absent); when a truthy `status` is provided, validate it against the live
`feedback_status` enum via `pg_enum` and answer 400 without updating when
it is not a label; otherwise build `UPDATE feedback SET modified_at =
CURRENT_TIMESTAMP` plus one `col = $i` per provided field in the order
status, type, title, data, notes (JSON fields serialized), append the id
as the final placeholder, and execute the single UPDATE. -/
def patchFeedback (db : Db) (i : String) (b : PatchBody) (now : Nat) : PatchOut :=
  match db.lookup i with
  | none => { resp := .notFound, db := db, trace := [.select], setCols := [], values := [] }
  | some _ =>
    if jsTruthy b.status ∧ ¬ (jsOr b.status "") ∈ db.statusEnum then
      { resp := .invalidStatus, db := db, trace := [.select, .select], setCols := [], values := [] }
    else
      let validated : List StmtKind := if jsTruthy b.status then [.select] else []
      let cols : List String :=
        ["modified_at"] ++
        (if jsTruthy b.status then ["status"] else []) ++
        (if jsTruthy b.type_ then ["type"] else []) ++
        (if jsTruthy b.title then ["title"] else []) ++
        (if jsTruthyJson b.data then ["data"] else []) ++
        (if jsTruthyJson b.notes then ["notes"] else [])
      let vals : List SqlValue :=
        (if jsTruthy b.status then [.str (jsOr b.status "")] else []) ++
        (if jsTruthy b.type_ then [.str (jsOr b.type_ "")] else []) ++
        (if jsTruthy b.title then [.str (jsOr b.title "")] else []) ++
        (if jsTruthyJson b.data then [.str ((b.data.getD .null).serialize)] else []) ++
        (if jsTruthyJson b.notes then [.str ((b.notes.getD .null).serialize)] else []) ++
        [.str i]
      let rows := db.rows.map (fun r => if r.id == i then applyPatch b now r else r)
      match (db.lookup i).map (applyPatch b now) with
      | some updated =>
        { resp := .ok updated.id updated.title updated.status updated.modified_at,
          db := { db with rows := rows },
          trace := [.select] ++ validated ++ [.update],
          setCols := cols,
          values := vals }
      | none =>
        { resp := .notFound, db := db, trace := [.select], setCols := [], values := [] }

/-- The JSON response of `DELETE /api/support/[id]`. -/
inductive DeleteResp where
  | notFound : DeleteResp
  | ok : DeleteResp
deriving DecidableEq, Repr

/-- What a DELETE run produced. -/
structure DeleteOut where
  resp : DeleteResp
  db : Db
  trace : List StmtKind

/-- `DELETE /api/support/[id]` (lines 247–286): check existence first
(404 when absent, without issuing the DELETE), then delete the row. -/
def deleteFeedback (db : Db) (i : String) : DeleteOut :=
  match db.lookup i with
  | none => { resp := .notFound, db := db, trace := [.select] }
  | some _ =>
    { resp := .ok,
      db := { db with rows := db.rows.filter (fun r => !(r.id == i)) },
      trace := [.select, .delete] }

/-! ## `POST /api/support` (`src/unnamed/part_000`) -/

/-- The character JavaScript uses for base-36 digit `n` (0–9 then a–z). -/
def base36digit (n : Nat) : Char :=
  if n < 10 then Char.ofNat (48 + n) else Char.ofNat (87 + n)

/-- Base-36 digits of `n`, most significant first. Structural recursion on
a fuel bound (a base-36 numeral of `n` never has more than `n + 1`
digits, so `jsToString36` always supplies enough fuel). -/
def toBase36Core (fuel n : Nat) : List Char :=
  match fuel with
  | 0 => []
  | fuel + 1 =>
    if n < 36 then [base36digit n]
    else toBase36Core fuel (n / 36) ++ [base36digit (n % 36)]

/-- `Number.prototype.toString(36)` of a natural (lowercase digits). -/
def jsToString36 (n : Nat) : String :=
  String.mk (toBase36Core (n + 1) n)

/-- `type === "bug" ? "BUG-" : type === "suggestion" ? "SUG-" : "SUP-"`. -/
def ticketPrefix (type_ : String) : String :=
  if type_ == "bug" then "BUG-" else if type_ == "suggestion" then "SUG-" else "SUP-"

/-- `.toUpperCase()`, character by character. -/
def jsToUpper (s : String) : String :=
  String.mk (s.toList.map Char.toUpper)

/-- `s.slice(-4)`: the last four characters (all of them when shorter). -/
def sliceLast4 (s : String) : String :=
  String.mk (s.toList.drop (s.toList.length - 4))

/-- `s.substring(2, 6)`: characters 2 to 5 (fewer when the string ends). -/
def jsSubstring2to6 (s : String) : String :=
  String.mk ((s.toList.drop 2).take 4)

/-- `generateTicketNumber` (`src/unnamed/part_000`, lines 26–31).
`nowMs` models `Date.now()`; `rand` models the string
`Math.random().toString(36)` (such as `"0.k2j3h4x9"`), of which
`substring(2, 6)` keeps the first four fractional digits. -/
def generateTicketNumber (type_ : String) (nowMs : Nat) (rand : String) : String :=
  let pfx := ticketPrefix type_
  let timestamp := jsToUpper (jsToString36 nowMs)
  let randomChars := jsToUpper (jsSubstring2to6 rand)
  pfx ++ sliceLast4 timestamp ++ randomChars

/-- One element of the `files` array of the POST body (base64 payload). -/
structure FileSpec where
  name : Option String
  type_ : Option String
  data : Option String

/-- One element of the `fileUploads` array the route accumulates: either
the uploaded blob descriptor or the per-file error entry. The `size` field
abstracts `Buffer.from(...).length` by the payload length. -/
inductive UploadEntry where
  | uploaded : String → String → Nat → String → UploadEntry
  | errored : String → String → UploadEntry

/-- The name recorded in an upload entry. -/
def UploadEntry.name : UploadEntry → String
  | .uploaded n _ _ _ => n
  | .errored n _ => n

/-- Whether an entry records a failure (`error` key) rather than a success. -/
def UploadEntry.isError : UploadEntry → Bool
  | .uploaded _ _ _ _ => false
  | .errored _ _ => true

/-- The JSON object stored for an upload entry in `dataObject.files`. -/
def UploadEntry.toJson : UploadEntry → Json
  | .uploaded n u sz t =>
    .obj [("name", .str n), ("url", .str u), ("size", .num sz), ("type", .str t)]
  | .errored n e => .obj [("name", .str n), ("error", .str e)]

/-- The sequential per-file upload loop (`part_000`, lines 197–232).
`oracle k` is the outcome of the `k`-th `put` call into the blob store
(`some url` on success, `none` when `put` throws); `calls` counts the
`put` calls already made. A file missing `name` or `data` gets an invalid-
format entry without calling `put`; a thrown `put` is caught and recorded
as a per-file error entry; the loop always continues with the next file. -/
def processFiles (files : List FileSpec) (oracle : Nat → Option String) (calls : Nat) :
    List UploadEntry × Nat :=
  match files with
  | [] => ([], calls)
  | f :: fs =>
    if ¬ (jsTruthy f.name ∧ jsTruthy f.data) then
      let (rest, final) := processFiles fs oracle calls
      (.errored (jsOr f.name "unknown") "Invalid file format. Required: name and data" :: rest,
       final)
    else
      match oracle calls with
      | some url =>
        let (rest, final) := processFiles fs oracle (calls + 1)
        (.uploaded (jsOr f.name "unknown") url (f.data.getD "").length
           (jsOr f.type_ "application/octet-stream") :: rest,
         final)
      | none =>
        let (rest, final) := processFiles fs oracle (calls + 1)
        (.errored (jsOr f.name "unknown") "Failed to upload file" :: rest, final)

/-- The parsed JSON body of `POST /api/support`. `extra` keeps every field
of the body that the route does not read, preserved verbatim into `data`
by the deep copy. -/
structure PostBody where
  app_name : Option String
  type_ : Option String
  title : Option String
  status : Option String
  description : Option Json
  ticketNumber : Option String
  client_timestamp : Option Int
  files : List FileSpec
  extra : List (String × Json)

/-- Replace key `k` in an association list, or append it at the end
(JavaScript property-assignment order). -/
def setKv (kvs : List (String × Json)) (k : String) (v : Json) : List (String × Json) :=
  match kvs with
  | [] => [(k, v)]
  | (k0, v0) :: rest => if k0 == k then (k, v) :: rest else (k0, v0) :: setKv rest k v

/-- Read key `k` from a JSON object. -/
def Json.getField (j : Json) (k : String) : Option Json :=
  match j with
  | .obj kvs => (kvs.find? (fun kv => kv.1 == k)).map (fun kv => kv.2)
  | _ => none

/-- The parsed request body rendered back as the JSON object the deep copy
`JSON.parse(JSON.stringify(body))` yields. -/
def PostBody.toJson (b : PostBody) : Json :=
  .obj
    ((match b.app_name with | none => [] | some s => [("app_name", Json.str s)]) ++
     (match b.type_ with | none => [] | some s => [("type", Json.str s)]) ++
     (match b.title with | none => [] | some s => [("title", Json.str s)]) ++
     (match b.status with | none => [] | some s => [("status", Json.str s)]) ++
     (match b.description with | none => [] | some j => [("description", j)]) ++
     (match b.ticketNumber with | none => [] | some s => [("ticketNumber", Json.str s)]) ++
     (match b.client_timestamp with | none => [] | some n => [("client_timestamp", Json.num n)]) ++
     [("files", Json.arr (b.files.map (fun f =>
        Json.obj
          ((match f.name with | none => [] | some s => [("name", Json.str s)]) ++
           (match f.type_ with | none => [] | some s => [("type", Json.str s)]) ++
           (match f.data with | none => [] | some s => [("data", Json.str s)])))))] ++
     b.extra)

/-- The timing block the route appends to `dataObject`
(`t0` = server start, `t1` = server end, both `Date.now()` values). -/
def timingJson (clientTs : Int) (t0 t1 : Nat) : Json :=
  .obj [("client_timestamp", .num clientTs),
        ("server_start_timestamp", .num t0),
        ("server_end_timestamp", .num t1),
        ("server_processing_time_ms", .num ((t1 : Int) - (t0 : Int))),
        ("total_processing_time_ms", .num ((t1 : Int) - clientTs))]

/-- The `data` JSON persisted by the insert: the deep copy of the body with
`files` replaced by the upload results and the `timing` and `metadata`
blocks set (the user-agent and ISO timestamp inside `metadata` are not
modelled; no claim reads them). -/
def buildDataObject (b : PostBody) (uploads : List UploadEntry) (clientTs : Int)
    (t0 t1 : Nat) : Json :=
  match b.toJson with
  | .obj kvs =>
    .obj (setKv (setKv (setKv kvs "files" (.arr (uploads.map UploadEntry.toJson)))
      "timing" (timingJson clientTs t0 t1)) "metadata" (.obj []))
  | j => j

/-- The JSON response of `POST /api/support`. -/
inductive PostResp where
  | missingFields : PostResp
  | ok : String → String → Nat → Int → Int → PostResp
  | error500 : PostResp

/-- What a POST run produced: the response, the database after the run,
the statement trace, the accumulated per-file upload results, and the row
handed to the INSERT when one was executed successfully. -/
structure PostOut where
  resp : PostResp
  db : Db
  trace : List StmtKind
  fileUploads : List UploadEntry
  inserted : Option FeedbackRecord

/-- The status persisted by the insert path: default absent/falsy `status`
to `"pending"`, then silently coerce any value that is not a live
`feedback_status` label to `"pending"`. -/
def effectiveInsertStatus (db : Db) (b : PostBody) : String :=
  let status0 := jsOr b.status "pending"
  if status0 ∈ db.statusEnum then status0 else "pending"

/-- `body.client_timestamp || Date.now()` (`0` is falsy in JavaScript). -/
def effectiveClientTs (b : PostBody) (t0 : Nat) : Int :=
  match b.client_timestamp with
  | some n => if n == 0 then (t0 : Int) else n
  | none => (t0 : Int)

/-- `POST /api/support` (`src/unnamed/part_000`, lines 147–330).
`t0`/`t1` model the `Date.now()` calls at the start and end of processing;
`rand` models `Math.random().toString(36)` for ticket generation; `oracle`
models the blob store's answers to the successive `put` calls. Steps:
default `type` to `"bug"`, `title` to `"Untitled Request"`, `status` to
`"pending"`; validate `status` against the live enum and silently coerce
invalid values to `"pending"`; reject with 400 when `app_name`, `title` or
`description` is falsy; use the supplied `ticketNumber` or generate one;
upload the files sequentially; insert the row. The INSERT fails (caught as
a 500) when the id collides with an existing row (PRIMARY KEY) or the
status is not a live enum label (the `feedback_status` column type). -/
def postFeedback (db : Db) (b : PostBody) (t0 t1 : Nat) (rand : String)
    (oracle : Nat → Option String) : PostOut :=
  let type_ := jsOr b.type_ "bug"
  let title := jsOr b.title "Untitled Request"
  let clientTs : Int := effectiveClientTs b t0
  let status := effectiveInsertStatus db b
  if ¬ (jsTruthy b.app_name ∧ jsTruthyJson b.description) then
    { resp := .missingFields, db := db, trace := [.select], fileUploads := [],
      inserted := none }
  else
    let ticketId := jsOr b.ticketNumber (generateTicketNumber type_ t0 rand)
    let uploads := (processFiles b.files oracle 0).1
    let dataObject := buildDataObject b uploads clientTs t0 t1
    if (db.lookup ticketId).isSome ∨ ¬ status ∈ db.statusEnum then
      { resp := .error500, db := db, trace := [.select, .insert], fileUploads := uploads,
        inserted := none }
    else
      let row : FeedbackRecord :=
        { id := ticketId, app := jsOr b.app_name "", type_ := type_, title := title,
          status := status, data := dataObject, notes := .arr [],
          created_at := t1, modified_at := t1 }
      { resp := .ok ticketId title t1 ((t1 : Int) - (t0 : Int)) ((t1 : Int) - clientTs),
        db := { db with rows := db.rows ++ [row] },
        trace := [.select, .insert],
        fileUploads := uploads,
        inserted := some row }

/-! ## Theorems -/

/-- The value list contributed by a provided equality filter. -/
def optEqVal (o : Option String) : List SqlValue :=
  if jsTruthy o then [.str (jsOr o "")] else []

/-- The value list contributed by a provided title filter (`%...%`). -/
def optTitleVal (o : Option String) : List SqlValue :=
  if jsTruthy o then [.str ("%" ++ jsOr o "" ++ "%")] else []

/-- Full shape of the built listing query: placeholder indices are exactly
`1, …, numProvidedFilters + 2`, predicate columns appear in the fixed order
app, type, status, title, values line up with the placeholders, and the
LIMIT/OFFSET placeholders are the last two. -/
theorem buildListQuery_shape (p : ListParams) :
    (buildListQuery p).conds.map Cond.idx ++ [(buildListQuery p).limitIdx, (buildListQuery p).offsetIdx] =
      List.range' 1 (numProvidedFilters p + 2) ∧
    (buildListQuery p).conds.map Cond.col =
      (if jsTruthy p.app then ["app"] else []) ++ (if jsTruthy p.type_ then ["type"] else []) ++
      (if jsTruthy p.status then ["status"] else []) ++ (if jsTruthy p.title then ["title"] else []) ∧
    (buildListQuery p).values =
      optEqVal p.app ++ optEqVal p.type_ ++ optEqVal p.status ++ optTitleVal p.title ++
      [.int p.limit, .int p.offset] ∧
    (buildListQuery p).limitIdx = numProvidedFilters p + 1 ∧
    (buildListQuery p).offsetIdx = numProvidedFilters p + 2 := by
  obtain ⟨a, t, s, ti, l, o⟩ := p
  simp only [buildListQuery, QB.addEq, QB.addTitleIlike, numProvidedFilters, optEqVal, optTitleVal]
  cases ha : jsTruthy a <;> cases ht : jsTruthy t <;> cases hs : jsTruthy s <;>
    cases hti : jsTruthy ti <;>
    simp [ha, ht, hs, hti, List.range']

/-- C1: for every combination of provided listing filters, the listing
query builder produces exactly `numProvidedFilters + 2` positional
placeholders, numbered strictly sequentially from `$1` with no gaps and no
reuse; the predicates appear in the fixed order app, type, status, title;
the bound-values list lines up with the placeholders position by position;
and the LIMIT/OFFSET placeholders come last. -/
theorem C1_listing_placeholders_sequential (p : ListParams) :
    (buildListQuery p).conds.length = numProvidedFilters p ∧
    (buildListQuery p).conds.map Cond.idx ++ [(buildListQuery p).limitIdx, (buildListQuery p).offsetIdx] =
      List.range' 1 (numProvidedFilters p + 2) ∧
    (buildListQuery p).conds.map Cond.col =
      (if jsTruthy p.app then ["app"] else []) ++ (if jsTruthy p.type_ then ["type"] else []) ++
      (if jsTruthy p.status then ["status"] else []) ++ (if jsTruthy p.title then ["title"] else []) ∧
    (buildListQuery p).values =
      optEqVal p.app ++ optEqVal p.type_ ++ optEqVal p.status ++ optTitleVal p.title ++
      [.int p.limit, .int p.offset] ∧
    (buildListQuery p).values.length = numProvidedFilters p + 2 ∧
    (buildListQuery p).limitIdx = numProvidedFilters p + 1 ∧
    (buildListQuery p).offsetIdx = numProvidedFilters p + 2 := by
  obtain ⟨h1, h2, h3, h4, h5⟩ := buildListQuery_shape p
  have hlen : (buildListQuery p).conds.length = numProvidedFilters p := by
    have hc := congrArg List.length h1
    simp [List.length_range'] at hc
    omega
  refine ⟨hlen, h1, h2, h3, ?_, h4, h5⟩
  rw [h3]
  cases ha : jsTruthy p.app <;> cases ht : jsTruthy p.type_ <;> cases hs : jsTruthy p.status <;>
    cases hti : jsTruthy p.title <;>
    simp [optEqVal, optTitleVal, numProvidedFilters, ha, ht, hs, hti]

/-- The filter values preceding LIMIT/OFFSET in the bound-values list. -/
def preVals (p : ListParams) : List SqlValue :=
  optEqVal p.app ++ optEqVal p.type_ ++ optEqVal p.status ++ optTitleVal p.title

theorem preVals_length (p : ListParams) : (preVals p).length = numProvidedFilters p := by
  unfold preVals optEqVal optTitleVal numProvidedFilters
  cases jsTruthy p.app <;> cases jsTruthy p.type_ <;> cases jsTruthy p.status <;>
    cases jsTruthy p.title <;> simp

theorem buildList_getD_limit (p : ListParams) :
    (buildListQuery p).values.getD ((buildListQuery p).limitIdx - 1) (.str "") = .int p.limit := by
  obtain ⟨_, _, h3, h4, _⟩ := buildListQuery_shape p
  have hpre : (buildListQuery p).values = preVals p ++ [.int p.limit, .int p.offset] := by
    rw [h3]; simp [preVals, List.append_assoc]
  rw [hpre, h4]
  have hlen : (preVals p).length = numProvidedFilters p := preVals_length p
  rw [List.getD_append_right _ _ _ _ (by omega)]
  simp [hlen]

theorem buildList_getD_offset (p : ListParams) :
    (buildListQuery p).values.getD ((buildListQuery p).offsetIdx - 1) (.str "") = .int p.offset := by
  obtain ⟨_, _, h3, _, h5⟩ := buildListQuery_shape p
  have hpre : (buildListQuery p).values = preVals p ++ [.int p.limit, .int p.offset] := by
    rw [h3]; simp [preVals, List.append_assoc]
  rw [hpre, h5]
  have hlen : (preVals p).length = numProvidedFilters p := preVals_length p
  rw [List.getD_append_right _ _ _ _ (by omega)]
  have h2 : numProvidedFilters p + 2 - 1 - (preVals p).length = 1 := by omega
  rw [h2]
  rfl

/-- Executing the built listing query: LIMIT/OFFSET are read back through
their placeholders, so execution takes the request's own limit and offset. -/
theorem execListQuery_eq (db : Db) (p : ListParams) :
    execListQuery db (buildListQuery p) =
      (if p.limit < 0 ∨ p.offset < 0 then none
       else some (((sortByCreatedDesc (db.rows.filter (fun r =>
         (buildListQuery p).conds.all (fun c => evalCond (buildListQuery p).values c r)))).drop
           p.offset.toNat).take p.limit.toNat)) := by
  unfold execListQuery
  rw [buildList_getD_limit, buildList_getD_offset]

/-- C4: a successful listing returns at most `limit` rows, ordered by
`created_at` descending, and `hasMore` is true iff the returned row count
equals `limit`. -/
theorem C4_listing_limit_order_hasMore (db : Db) (p : ListParams)
    (rows : List FeedbackRecord) (cnt : Int) (pag : Pagination)
    (h : listFeedback db p = .ok rows cnt pag) :
    (rows.length : Int) ≤ p.limit ∧
    List.Pairwise createdDesc rows ∧
    (pag.hasMore = true ↔ (rows.length : Int) = p.limit) := by
  simp only [listFeedback] at h
  rw [execListQuery_eq] at h
  by_cases hneg : p.limit < 0 ∨ p.offset < 0
  · rw [if_pos hneg] at h
    simp at h
  · rw [if_neg hneg] at h
    simp only [ListResp.ok.injEq] at h
    obtain ⟨hrows, -, hpag⟩ := h
    have hlim : 0 ≤ p.limit := by omega
    refine ⟨?_, ?_, ?_⟩
    · have hle : rows.length ≤ p.limit.toNat := by
        rw [← hrows]
        simp [← hrows]
      omega
    · have hsorted : List.Pairwise createdDesc
          (sortByCreatedDesc (db.rows.filter (fun r =>
            (buildListQuery p).conds.all (fun c => evalCond (buildListQuery p).values c r)))) :=
        List.sorted_insertionSort createdDesc _
      rw [← hrows]
      exact List.Pairwise.sublist
        ((List.take_sublist _ _).trans (List.drop_sublist _ _)) hsorted
    · rw [← hpag, ← hrows]
      exact beq_iff_eq

/-- An older concrete row, used by the concrete-input theorems. -/
def wRec1 : FeedbackRecord :=
  { id := "SUP-AAAA1111", app := "demo", type_ := "support", title := "first",
    status := "pending", data := .null, notes := .arr [], created_at := 1, modified_at := 1 }

/-- A newer concrete row, used by the concrete-input theorems. -/
def wRec2 : FeedbackRecord :=
  { id := "BUG-BBBB2222", app := "demo", type_ := "bug", title := "second",
    status := "new", data := .null, notes := .arr [], created_at := 2, modified_at := 2 }

/-- A concrete database with the two rows and the live enum labels. -/
def wDb : Db := { rows := [wRec1, wRec2], statusEnum := feedbackStatusEnum }

/-- A concrete listing request: no filters, `limit=1`, `offset=0`. -/
def wParams : ListParams :=
  { app := none, type_ := none, status := none, title := none, limit := 1, offset := 0 }

theorem C4_listing_limit_order_hasMore_witness :
    (([wRec2].length : Int) ≤ wParams.limit) ∧
    List.Pairwise createdDesc [wRec2] ∧
    ((Pagination.mk 1 0 true).hasMore = true ↔ (([wRec2].length : Int) = wParams.limit)) :=
  C4_listing_limit_order_hasMore wDb wParams [wRec2] 1 (Pagination.mk 1 0 true) rfl

/-- C5: fetching or deleting a non-existent id answers not-found (404),
leaves the database unchanged, and issues no mutating statement. -/
theorem C5_missing_id_not_found_no_mutation (db : Db) (i : String)
    (h : db.lookup i = none) :
    (getFeedbackById db i).resp = .notFound ∧
    (getFeedbackById db i).db = db ∧
    (∀ k ∈ (getFeedbackById db i).trace, k.mutating = false) ∧
    (deleteFeedback db i).resp = .notFound ∧
    (deleteFeedback db i).db = db ∧
    (∀ k ∈ (deleteFeedback db i).trace, k.mutating = false) := by
  unfold getFeedbackById deleteFeedback
  rw [h]
  refine ⟨rfl, rfl, ?_, rfl, rfl, ?_⟩ <;>
    · intro k hk
      simp at hk
      simp [hk, StmtKind.mutating]

theorem C5_missing_id_not_found_no_mutation_witness :
    (getFeedbackById wDb "missing").resp = .notFound ∧
    (getFeedbackById wDb "missing").db = wDb ∧
    (∀ k ∈ (getFeedbackById wDb "missing").trace, k.mutating = false) ∧
    (deleteFeedback wDb "missing").resp = .notFound ∧
    (deleteFeedback wDb "missing").db = wDb ∧
    (∀ k ∈ (deleteFeedback wDb "missing").trace, k.mutating = false) :=
  C5_missing_id_not_found_no_mutation wDb "missing" rfl

theorem applyPatch_id (b : PatchBody) (now : Nat) (r : FeedbackRecord) :
    (applyPatch b now r).id = r.id := rfl

theorem lookup_map_patch (rows : List FeedbackRecord) (i : String) (b : PatchBody) (now : Nat)
    (rec : FeedbackRecord) (h : rows.find? (fun r => r.id == i) = some rec) :
    (rows.map (fun r => if r.id == i then applyPatch b now r else r)).find?
      (fun r => r.id == i) = some (applyPatch b now rec) := by
  induction rows with
  | nil => simp at h
  | cons r rs ih =>
    simp only [List.map_cons, List.find?_cons] at h ⊢
    cases hid : (r.id == i)
    · simp only [hid, Bool.false_eq_true, reduceIte] at h ⊢
      exact ih h
    · simp only [hid, reduceIte, applyPatch_id, Option.some.injEq] at h ⊢
      rw [h]

/-- A successful PATCH run (`patchOk`): the row exists and a provided
truthy `status` is a live enum label. -/
def patchOk (db : Db) (i : String) (b : PatchBody) : Prop :=
  (db.lookup i).isSome ∧ (jsTruthy b.status = true → jsOr b.status "" ∈ db.statusEnum)

theorem patchFeedback_success (db : Db) (i : String) (b : PatchBody) (now : Nat)
    (rec : FeedbackRecord) (hrec : db.lookup i = some rec)
    (hs : jsTruthy b.status = true → jsOr b.status "" ∈ db.statusEnum) :
    (patchFeedback db i b now).db.lookup i = some (applyPatch b now rec) ∧
    (patchFeedback db i b now).resp =
      .ok (applyPatch b now rec).id (applyPatch b now rec).title
        (applyPatch b now rec).status (applyPatch b now rec).modified_at ∧
    (patchFeedback db i b now).setCols =
      ["modified_at"] ++
      (if jsTruthy b.status then ["status"] else []) ++
      (if jsTruthy b.type_ then ["type"] else []) ++
      (if jsTruthy b.title then ["title"] else []) ++
      (if jsTruthyJson b.data then ["data"] else []) ++
      (if jsTruthyJson b.notes then ["notes"] else []) := by
  have hcond : ¬ (jsTruthy b.status = true ∧ ¬ (jsOr b.status "") ∈ db.statusEnum) := by
    rintro ⟨h1, h2⟩
    exact h2 (hs h1)
  unfold patchFeedback
  rw [hrec]
  simp only [hrec, if_neg hcond, Option.map_some]
  refine ⟨?_, rfl, rfl⟩
  show Db.lookup _ i = _
  unfold Db.lookup at hrec ⊢
  exact lookup_map_patch db.rows i b now rec hrec

theorem mem_if_singleton {c x : String} {cond : Bool}
    (h : c ∈ (if cond = true then [x] else [])) : c = x ∧ cond = true := by
  cases cond <;> simp_all

theorem jsTruthy_ne_none {o : Option String} (h : jsTruthy o = true) : o ≠ none := by
  rintro rfl
  simp [jsTruthy] at h

theorem jsTruthyJson_ne_none {o : Option Json} (h : jsTruthyJson o = true) : o ≠ none := by
  rintro rfl
  simp [jsTruthyJson] at h

/-- C6: every successful partial update stamps `modified_at` with the
current time (even when no updatable field is provided) and leaves `id`,
`app` and `created_at` unchanged; the SET clause is exactly `modified_at`
plus the provided truthy subset of status, type, title, data, notes — in
particular it contains nothing outside `modified_at` and the provided
fields. -/
theorem C6_patch_frame (db : Db) (i : String) (b : PatchBody) (now : Nat)
    (rec : FeedbackRecord) (hrec : db.lookup i = some rec)
    (hs : jsTruthy b.status = true → jsOr b.status "" ∈ db.statusEnum) :
    ((patchFeedback db i b now).db.lookup i).map FeedbackRecord.modified_at = some now ∧
    ((patchFeedback db i b now).db.lookup i).map FeedbackRecord.id = some rec.id ∧
    ((patchFeedback db i b now).db.lookup i).map FeedbackRecord.app = some rec.app ∧
    ((patchFeedback db i b now).db.lookup i).map FeedbackRecord.created_at = some rec.created_at ∧
    (patchFeedback db i b now).setCols =
      ["modified_at"] ++
      (if jsTruthy b.status then ["status"] else []) ++
      (if jsTruthy b.type_ then ["type"] else []) ++
      (if jsTruthy b.title then ["title"] else []) ++
      (if jsTruthyJson b.data then ["data"] else []) ++
      (if jsTruthyJson b.notes then ["notes"] else []) ∧
    (∀ c ∈ (patchFeedback db i b now).setCols,
      c = "modified_at" ∨ (c = "status" ∧ b.status ≠ none) ∨ (c = "type" ∧ b.type_ ≠ none) ∨
      (c = "title" ∧ b.title ≠ none) ∨ (c = "data" ∧ b.data ≠ none) ∨
      (c = "notes" ∧ b.notes ≠ none)) := by
  obtain ⟨h1, _, h3⟩ := patchFeedback_success db i b now rec hrec hs
  rw [h1, h3]
  refine ⟨rfl, rfl, rfl, rfl, rfl, ?_⟩
  intro c hc
  simp only [List.append_assoc, List.mem_append, List.mem_singleton] at hc
  rcases hc with hc | hc | hc | hc | hc | hc
  · exact Or.inl hc
  · obtain ⟨hcx, hcond⟩ := mem_if_singleton hc
    exact Or.inr (Or.inl ⟨hcx, jsTruthy_ne_none hcond⟩)
  · obtain ⟨hcx, hcond⟩ := mem_if_singleton hc
    exact Or.inr (Or.inr (Or.inl ⟨hcx, jsTruthy_ne_none hcond⟩))
  · obtain ⟨hcx, hcond⟩ := mem_if_singleton hc
    exact Or.inr (Or.inr (Or.inr (Or.inl ⟨hcx, jsTruthy_ne_none hcond⟩)))
  · obtain ⟨hcx, hcond⟩ := mem_if_singleton hc
    exact Or.inr (Or.inr (Or.inr (Or.inr (Or.inl ⟨hcx, jsTruthyJson_ne_none hcond⟩))))
  · obtain ⟨hcx, hcond⟩ := mem_if_singleton hc
    exact Or.inr (Or.inr (Or.inr (Or.inr (Or.inr ⟨hcx, jsTruthyJson_ne_none hcond⟩))))

/-- A concrete PATCH body providing only a new title. -/
def wPatchTitle : PatchBody :=
  { type_ := none, title := some "T", status := none, data := none, notes := none }

theorem C6_patch_frame_witness :
    ((patchFeedback wDb "SUP-AAAA1111" wPatchTitle 7).db.lookup "SUP-AAAA1111").map
      FeedbackRecord.modified_at = some 7 ∧
    ((patchFeedback wDb "SUP-AAAA1111" wPatchTitle 7).db.lookup "SUP-AAAA1111").map
      FeedbackRecord.id = some wRec1.id ∧
    ((patchFeedback wDb "SUP-AAAA1111" wPatchTitle 7).db.lookup "SUP-AAAA1111").map
      FeedbackRecord.app = some wRec1.app ∧
    ((patchFeedback wDb "SUP-AAAA1111" wPatchTitle 7).db.lookup "SUP-AAAA1111").map
      FeedbackRecord.created_at = some wRec1.created_at ∧
    (patchFeedback wDb "SUP-AAAA1111" wPatchTitle 7).setCols =
      ["modified_at"] ++
      (if jsTruthy wPatchTitle.status then ["status"] else []) ++
      (if jsTruthy wPatchTitle.type_ then ["type"] else []) ++
      (if jsTruthy wPatchTitle.title then ["title"] else []) ++
      (if jsTruthyJson wPatchTitle.data then ["data"] else []) ++
      (if jsTruthyJson wPatchTitle.notes then ["notes"] else []) ∧
    (∀ c ∈ (patchFeedback wDb "SUP-AAAA1111" wPatchTitle 7).setCols,
      c = "modified_at" ∨ (c = "status" ∧ wPatchTitle.status ≠ none) ∨
      (c = "type" ∧ wPatchTitle.type_ ≠ none) ∨
      (c = "title" ∧ wPatchTitle.title ≠ none) ∨ (c = "data" ∧ wPatchTitle.data ≠ none) ∨
      (c = "notes" ∧ wPatchTitle.notes ≠ none)) :=
  C6_patch_frame wDb "SUP-AAAA1111" wPatchTitle 7 wRec1 rfl (by decide)

theorem isEmpty_false_of_ne {s : String} (h : s ≠ "") : s.isEmpty = false := by
  rw [Bool.eq_false_iff]
  intro hh
  exact h ((String.isEmpty_iff s).mp hh)

theorem jsTruthy_some_ne {s : String} (h : s ≠ "") : jsTruthy (some s) = true := by
  simp [jsTruthy, isEmpty_false_of_ne h]

theorem jsOr_some_ne {s : String} (d : String) (h : s ≠ "") : jsOr (some s) d = s := by
  simp [jsOr, isEmpty_false_of_ne h]

/-- C2 counterexample: the claim fails when the provided status value is
the empty string. `""` is not a label of the live `feedback_status` enum,
yet `PATCH` with body `{status: ""}` on the existing row answers 200, runs
the UPDATE, and advances `modified_at` — no 400 "invalid status" and the
record is not left unchanged. -/
theorem C2_counterexample_empty_status :
    ("" ∈ wDb.statusEnum → False) ∧
    (patchFeedback wDb "SUP-AAAA1111"
      { type_ := none, title := none, status := some "", data := none, notes := none } 5).resp =
      .ok "SUP-AAAA1111" "first" "pending" 5 ∧
    .update ∈ (patchFeedback wDb "SUP-AAAA1111"
      { type_ := none, title := none, status := some "", data := none, notes := none } 5).trace ∧
    ((patchFeedback wDb "SUP-AAAA1111"
      { type_ := none, title := none, status := some "", data := none, notes := none } 5).db.lookup
        "SUP-AAAA1111").map FeedbackRecord.modified_at = some 5 ∧
    wRec1.modified_at = 1 := by
  refine ⟨by decide, rfl, ?_, rfl, rfl⟩
  show StmtKind.update ∈ [StmtKind.select, StmtKind.update]
  simp

/-- C2 amended: on an existing record, a provided non-empty status value
that is not a live `feedback_status` label makes PATCH answer the 400
"invalid status" error with the database unchanged and no mutating
statement issued; a provided non-empty status value that is a live label
makes the update set `status` to it and stamp `modified_at` with the
current time. (A provided empty-string status is treated as absent, see
the counterexample.) -/
theorem C2_amended_patch_status_validation (db : Db) (i : String) (b : PatchBody) (now : Nat)
    (rec : FeedbackRecord) (hrec : db.lookup i = some rec) :
    (∀ s, b.status = some s → s ≠ "" → s ∉ db.statusEnum →
      (patchFeedback db i b now).resp = .invalidStatus ∧
      (patchFeedback db i b now).db = db ∧
      ∀ k ∈ (patchFeedback db i b now).trace, k.mutating = false) ∧
    (∀ s, b.status = some s → s ≠ "" → s ∈ db.statusEnum →
      ((patchFeedback db i b now).db.lookup i).map FeedbackRecord.status = some s ∧
      ((patchFeedback db i b now).db.lookup i).map FeedbackRecord.modified_at = some now) := by
  constructor
  · intro s hbs hne hnotin
    have hcond : jsTruthy b.status = true ∧ ¬ (jsOr b.status "") ∈ db.statusEnum := by
      rw [hbs]
      exact ⟨jsTruthy_some_ne hne, by rw [jsOr_some_ne _ hne]; exact hnotin⟩
    unfold patchFeedback
    rw [hrec, if_pos hcond]
    refine ⟨rfl, rfl, ?_⟩
    intro k hk
    simp at hk
    simp [hk, StmtKind.mutating]
  · intro s hbs hne hin
    have hs : jsTruthy b.status = true → jsOr b.status "" ∈ db.statusEnum := by
      intro _
      rw [hbs, jsOr_some_ne _ hne]
      exact hin
    obtain ⟨h1, -, -⟩ := patchFeedback_success db i b now rec hrec hs
    rw [h1]
    constructor
    · show some (applyPatch b now rec).status = some s
      simp [applyPatch, hbs, jsTruthy_some_ne hne, jsOr_some_ne _ hne]
    · rfl

theorem C2_amended_patch_status_validation_witness :
    (patchFeedback wDb "SUP-AAAA1111"
      { type_ := none, title := none, status := some "zzz", data := none, notes := none } 5).resp =
      PatchResp.invalidStatus ∧
    (patchFeedback wDb "SUP-AAAA1111"
      { type_ := none, title := none, status := some "zzz", data := none, notes := none } 5).db =
      wDb ∧
    ∀ k ∈ (patchFeedback wDb "SUP-AAAA1111"
      { type_ := none, title := none, status := some "zzz", data := none, notes := none } 5).trace,
      k.mutating = false :=
  (C2_amended_patch_status_validation wDb "SUP-AAAA1111"
    { type_ := none, title := none, status := some "zzz", data := none, notes := none } 5 wRec1
    rfl).1 "zzz" rfl (by decide) (by decide)

theorem mem_if_singleton_iff {c x : String} {cond : Bool} :
    c ∈ (if cond = true then [x] else []) ↔ (c = x ∧ cond = true) := by
  cases cond <;> simp

theorem patch_setCols_mem (db : Db) (i : String) (b : PatchBody) (now : Nat)
    (rec : FeedbackRecord) (hrec : db.lookup i = some rec)
    (hs : jsTruthy b.status = true → jsOr b.status "" ∈ db.statusEnum) (c : String) :
    c ∈ (patchFeedback db i b now).setCols ↔
      (c = "modified_at" ∨ (c = "status" ∧ jsTruthy b.status = true) ∨
       (c = "type" ∧ jsTruthy b.type_ = true) ∨ (c = "title" ∧ jsTruthy b.title = true) ∨
       (c = "data" ∧ jsTruthyJson b.data = true) ∨ (c = "notes" ∧ jsTruthyJson b.notes = true)) := by
  obtain ⟨-, -, h3⟩ := patchFeedback_success db i b now rec hrec hs
  rw [h3]
  simp only [List.append_assoc, List.mem_append, List.mem_singleton, mem_if_singleton_iff]

theorem jsOr_ne_empty {o : Option String} (d : String) (h : jsTruthy o = true) :
    jsOr o d ≠ "" := by
  cases o with
  | none => simp [jsTruthy] at h
  | some s =>
    have hie : s.isEmpty = false := by
      cases hs2 : s.isEmpty
      · rfl
      · rw [jsTruthy, hs2] at h
        simp at h
    simp only [jsOr, hie]
    intro heq
    simp at heq
    rw [heq] at hie
    exact absurd hie (by decide)

/-- C10: in a PATCH, a provided field whose value is falsy (empty string
for status, type, title; `null` for data, notes) is treated as absent: its
column is omitted from the SET clause and the stored value is unchanged;
consequently no update can turn a non-empty title, type or status into the
empty string. -/
theorem C10_patch_falsy_treated_absent (db : Db) (i : String) (b : PatchBody) (now : Nat)
    (rec : FeedbackRecord) (hrec : db.lookup i = some rec)
    (hs : jsTruthy b.status = true → jsOr b.status "" ∈ db.statusEnum) :
    (jsTruthy b.status = false → "status" ∉ (patchFeedback db i b now).setCols ∧
      ((patchFeedback db i b now).db.lookup i).map FeedbackRecord.status = some rec.status) ∧
    (jsTruthy b.type_ = false → "type" ∉ (patchFeedback db i b now).setCols ∧
      ((patchFeedback db i b now).db.lookup i).map FeedbackRecord.type_ = some rec.type_) ∧
    (jsTruthy b.title = false → "title" ∉ (patchFeedback db i b now).setCols ∧
      ((patchFeedback db i b now).db.lookup i).map FeedbackRecord.title = some rec.title) ∧
    (jsTruthyJson b.data = false → "data" ∉ (patchFeedback db i b now).setCols ∧
      ((patchFeedback db i b now).db.lookup i).map FeedbackRecord.data = some rec.data) ∧
    (jsTruthyJson b.notes = false → "notes" ∉ (patchFeedback db i b now).setCols ∧
      ((patchFeedback db i b now).db.lookup i).map FeedbackRecord.notes = some rec.notes) ∧
    (rec.status ≠ "" → ((patchFeedback db i b now).db.lookup i).map FeedbackRecord.status ≠ some "") ∧
    (rec.type_ ≠ "" → ((patchFeedback db i b now).db.lookup i).map FeedbackRecord.type_ ≠ some "") ∧
    (rec.title ≠ "" → ((patchFeedback db i b now).db.lookup i).map FeedbackRecord.title ≠ some "") := by
  obtain ⟨h1, -, -⟩ := patchFeedback_success db i b now rec hrec hs
  have hmem := patch_setCols_mem db i b now rec hrec hs
  refine ⟨?_, ?_, ?_, ?_, ?_, ?_, ?_, ?_⟩
  · intro hf
    refine ⟨?_, ?_⟩
    · rw [hmem "status"]
      rintro (h | ⟨-, hc⟩ | ⟨h, -⟩ | ⟨h, -⟩ | ⟨h, -⟩ | ⟨h, -⟩) <;> simp_all
    · rw [h1]
      simp [applyPatch, hf]
  · intro hf
    refine ⟨?_, ?_⟩
    · rw [hmem "type"]
      rintro (h | ⟨h, -⟩ | ⟨-, hc⟩ | ⟨h, -⟩ | ⟨h, -⟩ | ⟨h, -⟩) <;> simp_all
    · rw [h1]
      simp [applyPatch, hf]
  · intro hf
    refine ⟨?_, ?_⟩
    · rw [hmem "title"]
      rintro (h | ⟨h, -⟩ | ⟨h, -⟩ | ⟨-, hc⟩ | ⟨h, -⟩ | ⟨h, -⟩) <;> simp_all
    · rw [h1]
      simp [applyPatch, hf]
  · intro hf
    refine ⟨?_, ?_⟩
    · rw [hmem "data"]
      rintro (h | ⟨h, -⟩ | ⟨h, -⟩ | ⟨h, -⟩ | ⟨-, hc⟩ | ⟨h, -⟩) <;> simp_all
    · rw [h1]
      simp [applyPatch, hf]
  · intro hf
    refine ⟨?_, ?_⟩
    · rw [hmem "notes"]
      rintro (h | ⟨h, -⟩ | ⟨h, -⟩ | ⟨h, -⟩ | ⟨h, -⟩ | ⟨-, hc⟩) <;> simp_all
    · rw [h1]
      simp [applyPatch, hf]
  · intro hne
    rw [h1]
    simp only [Option.map_some, ne_eq, Option.some.injEq, applyPatch]
    cases ht : jsTruthy b.status
    · simpa [ht] using hne
    · simpa [ht] using jsOr_ne_empty rec.status ht
  · intro hne
    rw [h1]
    simp only [Option.map_some, ne_eq, Option.some.injEq, applyPatch]
    cases ht : jsTruthy b.type_
    · simpa [ht] using hne
    · simpa [ht] using jsOr_ne_empty rec.type_ ht
  · intro hne
    rw [h1]
    simp only [Option.map_some, ne_eq, Option.some.injEq, applyPatch]
    cases ht : jsTruthy b.title
    · simpa [ht] using hne
    · simpa [ht] using jsOr_ne_empty rec.title ht

/-- A concrete PATCH body whose provided fields are all falsy. -/
def wPatchFalsy : PatchBody :=
  { type_ := some "", title := none, status := some "", data := some .null, notes := none }

theorem C10_patch_falsy_treated_absent_witness :
    (jsTruthy wPatchFalsy.status = false →
      "status" ∉ (patchFeedback wDb "SUP-AAAA1111" wPatchFalsy 9).setCols ∧
      ((patchFeedback wDb "SUP-AAAA1111" wPatchFalsy 9).db.lookup "SUP-AAAA1111").map
        FeedbackRecord.status = some wRec1.status) ∧
    (jsTruthy wPatchFalsy.type_ = false →
      "type" ∉ (patchFeedback wDb "SUP-AAAA1111" wPatchFalsy 9).setCols ∧
      ((patchFeedback wDb "SUP-AAAA1111" wPatchFalsy 9).db.lookup "SUP-AAAA1111").map
        FeedbackRecord.type_ = some wRec1.type_) ∧
    (jsTruthy wPatchFalsy.title = false →
      "title" ∉ (patchFeedback wDb "SUP-AAAA1111" wPatchFalsy 9).setCols ∧
      ((patchFeedback wDb "SUP-AAAA1111" wPatchFalsy 9).db.lookup "SUP-AAAA1111").map
        FeedbackRecord.title = some wRec1.title) ∧
    (jsTruthyJson wPatchFalsy.data = false →
      "data" ∉ (patchFeedback wDb "SUP-AAAA1111" wPatchFalsy 9).setCols ∧
      ((patchFeedback wDb "SUP-AAAA1111" wPatchFalsy 9).db.lookup "SUP-AAAA1111").map
        FeedbackRecord.data = some wRec1.data) ∧
    (jsTruthyJson wPatchFalsy.notes = false →
      "notes" ∉ (patchFeedback wDb "SUP-AAAA1111" wPatchFalsy 9).setCols ∧
      ((patchFeedback wDb "SUP-AAAA1111" wPatchFalsy 9).db.lookup "SUP-AAAA1111").map
        FeedbackRecord.notes = some wRec1.notes) ∧
    (wRec1.status ≠ "" →
      ((patchFeedback wDb "SUP-AAAA1111" wPatchFalsy 9).db.lookup "SUP-AAAA1111").map
        FeedbackRecord.status ≠ some "") ∧
    (wRec1.type_ ≠ "" →
      ((patchFeedback wDb "SUP-AAAA1111" wPatchFalsy 9).db.lookup "SUP-AAAA1111").map
        FeedbackRecord.type_ ≠ some "") ∧
    (wRec1.title ≠ "" →
      ((patchFeedback wDb "SUP-AAAA1111" wPatchFalsy 9).db.lookup "SUP-AAAA1111").map
        FeedbackRecord.title ≠ some "") :=
  C10_patch_falsy_treated_absent wDb "SUP-AAAA1111" wPatchFalsy 9 wRec1 rfl (by decide)

theorem jsOr_of_falsy {o : Option String} (d : String) (h : jsTruthy o = false) :
    jsOr o d = d := by
  cases o with
  | none => rfl
  | some s =>
    simp only [jsTruthy] at h
    simp [jsOr, Bool.not_eq_false] at h ⊢
    simp [h]

theorem postFeedback_not_missing (db : Db) (b : PostBody) (t0 t1 : Nat) (rand : String)
    (oracle : Nat → Option String)
    (happ : jsTruthy b.app_name = true) (hdesc : jsTruthyJson b.description = true) :
    (postFeedback db b t0 t1 rand oracle).resp ≠ .missingFields ∧
    (postFeedback db b t0 t1 rand oracle).fileUploads = (processFiles b.files oracle 0).1 := by
  unfold postFeedback
  rw [if_neg (by simp [happ, hdesc])]
  by_cases hcol : (db.lookup (jsOr b.ticketNumber
      (generateTicketNumber (jsOr b.type_ "bug") t0 rand))).isSome = true ∨
      ¬ effectiveInsertStatus db b ∈ db.statusEnum
  · rw [if_pos hcol]
    exact ⟨by simp, rfl⟩
  · rw [if_neg hcol]
    exact ⟨by simp, rfl⟩

theorem postFeedback_inserted_fields (db : Db) (b : PostBody) (t0 t1 : Nat) (rand : String)
    (oracle : Nat → Option String) (r : FeedbackRecord)
    (h : (postFeedback db b t0 t1 rand oracle).inserted = some r) :
    r = { id := jsOr b.ticketNumber (generateTicketNumber (jsOr b.type_ "bug") t0 rand),
          app := jsOr b.app_name "", type_ := jsOr b.type_ "bug",
          title := jsOr b.title "Untitled Request", status := effectiveInsertStatus db b,
          data := buildDataObject b (processFiles b.files oracle 0).1 (effectiveClientTs b t0) t0 t1,
          notes := .arr [], created_at := t1, modified_at := t1 } := by
  unfold postFeedback at h
  by_cases h1 : (jsTruthy b.app_name = true ∧ jsTruthyJson b.description = true)
  · rw [if_neg (not_not_intro h1)] at h
    by_cases h2 : (db.lookup (jsOr b.ticketNumber
        (generateTicketNumber (jsOr b.type_ "bug") t0 rand))).isSome = true ∨
        ¬ effectiveInsertStatus db b ∈ db.statusEnum
    · rw [if_pos h2] at h
      simp at h
    · rw [if_neg h2] at h
      simp only [Option.some.injEq] at h
      exact h.symm
  · rw [if_pos h1] at h
    simp at h

/-- C3: a create request whose status is absent or not a live enum label
persists a record with `status = "pending"` (silently coerced, not
rejected). -/
theorem C3_insert_coerces_status_to_pending (db : Db) (b : PostBody) (t0 t1 : Nat)
    (rand : String) (oracle : Nat → Option String)
    (hstat : ∀ s, b.status = some s → s ∉ db.statusEnum) :
    ∀ r, (postFeedback db b t0 t1 rand oracle).inserted = some r → r.status = "pending" := by
  intro r h
  rw [postFeedback_inserted_fields db b t0 t1 rand oracle r h]
  show effectiveInsertStatus db b = "pending"
  simp only [effectiveInsertStatus]
  cases hbs : b.status with
  | none =>
    show (if jsOr none "pending" ∈ db.statusEnum then jsOr none "pending" else "pending") = _
    split <;> rfl
  | some s =>
    by_cases hse : s.isEmpty = true
    · have heq : jsOr (some s) "pending" = "pending" := by simp [jsOr, hse]
      rw [heq]
      split <;> rfl
    · have heq : jsOr (some s) "pending" = s := by simp [jsOr, hse]
      rw [heq, if_neg (hstat s hbs)]

/-- A concrete create request carrying an invalid status value. -/
def wPostInvalidStatus : PostBody :=
  { app_name := some "demo", type_ := some "bug", title := some "t",
    status := some "bogus", description := some (.str "d"), ticketNumber := some "T-1",
    client_timestamp := none, files := [], extra := [] }

theorem C3_insert_coerces_status_to_pending_witness :
    ((postFeedback wDb wPostInvalidStatus 100 200 "0.abcdef" (fun _ => none)).inserted).map
      FeedbackRecord.status = some "pending" := by
  have h := C3_insert_coerces_status_to_pending wDb wPostInvalidStatus 100 200 "0.abcdef"
    (fun _ => none) (by
      intro s hs
      injection hs with hs
      subst hs
      decide)
  cases hins : (postFeedback wDb wPostInvalidStatus 100 200 "0.abcdef" (fun _ => none)).inserted with
  | none =>
    have hsome : (postFeedback wDb wPostInvalidStatus 100 200 "0.abcdef"
        (fun _ => none)).inserted.isSome = true := rfl
    rw [hins] at hsome
    exact absurd hsome (by decide)
  | some r =>
    exact congrArg some (h r hins)

/-- C7: a create request without a title is not rejected for the missing
title (given the other required fields) and the persisted record's title
is `"Untitled Request"`. -/
theorem C7_missing_title_defaults (db : Db) (b : PostBody) (t0 t1 : Nat) (rand : String)
    (oracle : Nat → Option String) (htitle : b.title = none)
    (happ : jsTruthy b.app_name = true) (hdesc : jsTruthyJson b.description = true) :
    (postFeedback db b t0 t1 rand oracle).resp ≠ .missingFields ∧
    ∀ r, (postFeedback db b t0 t1 rand oracle).inserted = some r →
      r.title = "Untitled Request" := by
  refine ⟨(postFeedback_not_missing db b t0 t1 rand oracle happ hdesc).1, ?_⟩
  intro r h
  rw [postFeedback_inserted_fields db b t0 t1 rand oracle r h]
  show jsOr b.title "Untitled Request" = _
  rw [htitle]
  rfl

/-- A concrete create request with no title field. -/
def wPostNoTitle : PostBody :=
  { app_name := some "demo", type_ := none, title := none,
    status := none, description := some (.str "d"), ticketNumber := some "T-2",
    client_timestamp := none, files := [], extra := [] }

theorem C7_missing_title_defaults_witness :
    (postFeedback wDb wPostNoTitle 100 200 "0.abcdef" (fun _ => none)).resp ≠
      PostResp.missingFields ∧
    ((postFeedback wDb wPostNoTitle 100 200 "0.abcdef" (fun _ => none)).inserted).map
      FeedbackRecord.title = some "Untitled Request" := by
  have h := C7_missing_title_defaults wDb wPostNoTitle 100 200 "0.abcdef" (fun _ => none)
    rfl (by decide) (by decide)
  refine ⟨h.1, ?_⟩
  cases hins : (postFeedback wDb wPostNoTitle 100 200 "0.abcdef" (fun _ => none)).inserted with
  | none =>
    have hsome : (postFeedback wDb wPostNoTitle 100 200 "0.abcdef"
        (fun _ => none)).inserted.isSome = true := rfl
    rw [hins] at hsome
    exact absurd hsome (by decide)
  | some r =>
    exact congrArg some (h.2 r hins)

/-- A concrete create request with no ticket number supplied. -/
def wPostGenTicket : PostBody :=
  { app_name := some "demo", type_ := some "suggestion", title := some "t",
    status := none, description := some (.str "d"), ticketNumber := none,
    client_timestamp := none, files := [], extra := [] }

/-- C9 counterexample: the unconditional "4-character random suffix" is
false of the program. `Math.random()` can return exactly `0.25` (an exactly
representable double), whose `toString(36)` is `"0.9"`; `substring(2, 6)`
then yields the single character `"9"`, so for a create request without a
supplied ticket number the persisted id is `"SUG-" ++ "YA" ++ "9"` — its
random suffix has 1 character, not 4. -/
theorem C9_counterexample_short_random_suffix :
    ((postFeedback wDb wPostGenTicket 1234 1300 "0.9" (fun _ => none)).inserted).map
      FeedbackRecord.id = some "SUG-YA9" ∧
    "SUG-YA9" = ticketPrefix "suggestion" ++ sliceLast4 (jsToUpper (jsToString36 1234)) ++
      jsToUpper (jsSubstring2to6 "0.9") ∧
    (jsToUpper (jsSubstring2to6 "0.9")).length = 1 := by
  refine ⟨?_, ?_, ?_⟩ <;> rfl

/-- C9 amended: without an externally supplied ticket number, the persisted
id is `ticketPrefix(type) ++ last-4 of the uppercased base-36 timestamp ++
the uppercased substring(2, 6) of Math.random().toString(36)`; the prefix
is `"BUG-"` for type `"bug"`, `"SUG-"` for `"suggestion"` and `"SUP-"`
otherwise. The random suffix has `min 4 (rand.length - 2)` characters: 4
whenever the random expansion carries at least 4 fractional digits, fewer
when `Math.random()` returns a dyadic rational with a shorter base-36
expansion (see the counterexample). -/
theorem C9_amended_ticket_format (db : Db) (b : PostBody) (t0 t1 : Nat) (rand : String)
    (oracle : Nat → Option String)
    (hticket : jsTruthy b.ticketNumber = false) :
    ∀ r, (postFeedback db b t0 t1 rand oracle).inserted = some r →
      r.id = ticketPrefix (jsOr b.type_ "bug") ++ sliceLast4 (jsToUpper (jsToString36 t0)) ++
        jsToUpper (jsSubstring2to6 rand) ∧
      (jsToUpper (jsSubstring2to6 rand)).length = min 4 (rand.length - 2) ∧
      (6 ≤ rand.length → (jsToUpper (jsSubstring2to6 rand)).length = 4) ∧
      ticketPrefix "bug" = "BUG-" ∧
      ticketPrefix "suggestion" = "SUG-" ∧
      (∀ ty, ty ≠ "bug" → ty ≠ "suggestion" → ticketPrefix ty = "SUP-") := by
  intro r h
  have hlen : (jsToUpper (jsSubstring2to6 rand)).length = min 4 (rand.length - 2) := by
    simp only [jsToUpper, jsSubstring2to6, String.toList]
    show ((((String.mk ((rand.data.drop 2).take 4)).data).map Char.toUpper).length) =
      min 4 (rand.length - 2)
    simp only [List.length_map, List.length_take, List.length_drop]
    have : rand.data.length = rand.length := rfl
    omega
  refine ⟨?_, hlen, ?_, rfl, rfl, ?_⟩
  · rw [postFeedback_inserted_fields db b t0 t1 rand oracle r h]
    show jsOr b.ticketNumber _ = _
    rw [jsOr_of_falsy _ hticket]
    rfl
  · intro hr
    rw [hlen]
    omega
  · intro ty h1 h2
    have hb1 : (ty == "bug") = false := beq_eq_false_iff_ne.mpr h1
    have hb2 : (ty == "suggestion") = false := beq_eq_false_iff_ne.mpr h2
    simp [ticketPrefix, hb1, hb2]

theorem C9_amended_ticket_format_witness :
    ((postFeedback wDb wPostGenTicket 1234 1300 "0.abcdef" (fun _ => none)).inserted).map
      FeedbackRecord.id =
      some (ticketPrefix (jsOr wPostGenTicket.type_ "bug") ++
        sliceLast4 (jsToUpper (jsToString36 1234)) ++ jsToUpper (jsSubstring2to6 "0.abcdef")) ∧
    (jsToUpper (jsSubstring2to6 "0.abcdef")).length = min 4 (("0.abcdef" : String).length - 2) ∧
    (6 ≤ ("0.abcdef" : String).length → (jsToUpper (jsSubstring2to6 "0.abcdef")).length = 4) ∧
    ticketPrefix "bug" = "BUG-" ∧
    ticketPrefix "suggestion" = "SUG-" ∧
    ticketPrefix "support" = "SUP-" := by
  have h := C9_amended_ticket_format wDb wPostGenTicket 1234 1300 "0.abcdef" (fun _ => none) rfl
  cases hins : (postFeedback wDb wPostGenTicket 1234 1300 "0.abcdef" (fun _ => none)).inserted with
  | none =>
    have hsome : (postFeedback wDb wPostGenTicket 1234 1300 "0.abcdef"
        (fun _ => none)).inserted.isSome = true := rfl
    rw [hins] at hsome
    exact absurd hsome (by decide)
  | some r =>
    obtain ⟨h1, h2, h3, h4, h5, h6⟩ := h r hins
    exact ⟨congrArg some h1, h2, h3, h4, h5, h6 "support" (by decide) (by decide)⟩

/-- A concrete well-formed attached file. -/
def wFile : FileSpec :=
  { name := some "a.png", type_ := some "image/png", data := some "AAAA" }

/-- A concrete create request with one attached file. -/
def wPostWithFile : PostBody :=
  { app_name := some "demo", type_ := some "bug", title := some "t",
    status := none, description := some (.str "d"), ticketNumber := some "T-3",
    client_timestamp := none, files := [wFile], extra := [] }

/-- C8 counterexample: per-file success/failure is not recorded in the
response payload. For the same concrete create request with one file, the
response when the blob upload succeeds is identical to the response when
it throws — the response carries no per-file outcome — while the
accumulated upload entries do differ and the record is created in both
runs (the outcomes land in the persisted `data.files`, not the response). -/
theorem C8_counterexample_response_lacks_file_outcomes :
    (postFeedback wDb wPostWithFile 100 200 "0.abcdef" (fun _ => some "https://blob/x")).resp =
      (postFeedback wDb wPostWithFile 100 200 "0.abcdef" (fun _ => none)).resp ∧
    (postFeedback wDb wPostWithFile 100 200 "0.abcdef"
      (fun _ => some "https://blob/x")).fileUploads.map UploadEntry.isError = [false] ∧
    (postFeedback wDb wPostWithFile 100 200 "0.abcdef"
      (fun _ => none)).fileUploads.map UploadEntry.isError = [true] ∧
    ((postFeedback wDb wPostWithFile 100 200 "0.abcdef"
      (fun _ => some "https://blob/x")).inserted).isSome = true ∧
    ((postFeedback wDb wPostWithFile 100 200 "0.abcdef"
      (fun _ => none)).inserted).isSome = true :=
  ⟨rfl, rfl, rfl, rfl, rfl⟩

theorem processFiles_names (files : List FileSpec) (oracle : Nat → Option String) (calls : Nat) :
    ((processFiles files oracle calls).1).map UploadEntry.name =
      files.map (fun f => jsOr f.name "unknown") := by
  induction files generalizing calls with
  | nil => simp [processFiles]
  | cons f fs ih =>
    simp only [processFiles]
    by_cases hv : ¬ (jsTruthy f.name = true ∧ jsTruthy f.data = true)
    · rw [if_pos hv]
      simp only [List.map_cons, UploadEntry.name]
      rw [ih calls]
    · rw [if_neg hv]
      cases oracle calls with
      | none =>
        simp only [List.map_cons, UploadEntry.name]
        rw [ih (calls + 1)]
      | some url =>
        simp only [List.map_cons, UploadEntry.name]
        rw [ih (calls + 1)]

theorem find_setKv_self (kvs : List (String × Json)) (k : String) (v : Json) :
    (setKv kvs k v).find? (fun kv => kv.1 == k) = some (k, v) := by
  induction kvs with
  | nil => simp [setKv]
  | cons kv0 rest ih =>
    obtain ⟨k0, v0⟩ := kv0
    simp only [setKv]
    by_cases hk : (k0 == k) = true
    · rw [if_pos hk]
      simp [List.find?_cons]
    · rw [if_neg hk]
      rw [List.find?_cons]
      simp only [hk]
      exact ih

theorem find_setKv_ne (kvs : List (String × Json)) (k : String) (v : Json) (k2 : String)
    (h : (k == k2) = false) :
    (setKv kvs k v).find? (fun kv => kv.1 == k2) = kvs.find? (fun kv => kv.1 == k2) := by
  induction kvs with
  | nil => simp [setKv, List.find?_cons, h]
  | cons kv0 rest ih =>
    obtain ⟨k0, v0⟩ := kv0
    simp only [setKv]
    by_cases hk : (k0 == k) = true
    · have hk0 : k0 = k := by simpa using hk
      subst hk0
      rw [if_pos hk, List.find?_cons, List.find?_cons]
      simp [h]
    · rw [if_neg hk, List.find?_cons, List.find?_cons]
      by_cases hx : (k0 == k2) = true
      · simp [hx]
      · simp only [hx, Bool.false_eq_true]
        exact ih

theorem buildDataObject_files (b : PostBody) (uploads : List UploadEntry) (clientTs : Int)
    (t0 t1 : Nat) :
    (buildDataObject b uploads clientTs t0 t1).getField "files" =
      some (.arr (uploads.map UploadEntry.toJson)) := by
  simp only [buildDataObject, PostBody.toJson]
  simp only [Json.getField]
  rw [find_setKv_ne _ _ _ _ (by decide), find_setKv_ne _ _ _ _ (by decide), find_setKv_self]
  rfl

theorem postFeedback_oracle_independent (db : Db) (b : PostBody) (t0 t1 : Nat) (rand : String)
    (oracle oracle2 : Nat → Option String) :
    (postFeedback db b t0 t1 rand oracle).resp = (postFeedback db b t0 t1 rand oracle2).resp ∧
    ((postFeedback db b t0 t1 rand oracle).inserted).isSome =
      ((postFeedback db b t0 t1 rand oracle2).inserted).isSome := by
  unfold postFeedback
  by_cases h1 : (jsTruthy b.app_name = true ∧ jsTruthyJson b.description = true)
  · rw [if_neg (not_not_intro h1), if_neg (not_not_intro h1)]
    by_cases h2 : (db.lookup (jsOr b.ticketNumber
        (generateTicketNumber (jsOr b.type_ "bug") t0 rand))).isSome = true ∨
        ¬ effectiveInsertStatus db b ∈ db.statusEnum
    · rw [if_pos h2, if_pos h2]
      exact ⟨rfl, rfl⟩
    · rw [if_neg h2, if_neg h2]
      exact ⟨rfl, rfl⟩
  · rw [if_pos h1, if_pos h1]
    exact ⟨rfl, rfl⟩

/-- C8 amended: files are processed sequentially with one entry per file
(in order), success or failure is recorded per file in the persisted
record's `data.files` array (not in the response payload), and neither the
response nor whether the record is created depends on the upload outcomes:
a failing upload aborts nothing. -/
theorem C8_amended_per_file_recorded_in_data (db : Db) (b : PostBody) (t0 t1 : Nat)
    (rand : String) (oracle : Nat → Option String)
    (happ : jsTruthy b.app_name = true) (hdesc : jsTruthyJson b.description = true) :
    (postFeedback db b t0 t1 rand oracle).fileUploads.map UploadEntry.name =
      b.files.map (fun f => jsOr f.name "unknown") ∧
    (∀ r, (postFeedback db b t0 t1 rand oracle).inserted = some r →
      r.data.getField "files" =
        some (.arr ((postFeedback db b t0 t1 rand oracle).fileUploads.map UploadEntry.toJson))) ∧
    (∀ oracle2,
      (postFeedback db b t0 t1 rand oracle).resp = (postFeedback db b t0 t1 rand oracle2).resp ∧
      ((postFeedback db b t0 t1 rand oracle).inserted).isSome =
        ((postFeedback db b t0 t1 rand oracle2).inserted).isSome) := by
  have hfu := (postFeedback_not_missing db b t0 t1 rand oracle happ hdesc).2
  refine ⟨?_, ?_, ?_⟩
  · rw [hfu]
    exact processFiles_names b.files oracle 0
  · intro r h
    rw [postFeedback_inserted_fields db b t0 t1 rand oracle r h]
    show (buildDataObject b ((processFiles b.files oracle 0).1) _ _ _).getField "files" = _
    rw [buildDataObject_files, hfu]
  · intro oracle2
    exact postFeedback_oracle_independent db b t0 t1 rand oracle oracle2

theorem C8_amended_per_file_recorded_in_data_witness :
    (postFeedback wDb wPostWithFile 100 200 "0.abcdef" (fun _ => none)).fileUploads.map
      UploadEntry.name = wPostWithFile.files.map (fun f => jsOr f.name "unknown") ∧
    ((postFeedback wDb wPostWithFile 100 200 "0.abcdef" (fun _ => none)).inserted).map
      (fun r => r.data.getField "files") =
      some (some (.arr ((postFeedback wDb wPostWithFile 100 200 "0.abcdef"
        (fun _ => none)).fileUploads.map UploadEntry.toJson))) ∧
    (postFeedback wDb wPostWithFile 100 200 "0.abcdef" (fun _ => none)).resp =
      (postFeedback wDb wPostWithFile 100 200 "0.abcdef" (fun _ => some "https://blob/x")).resp ∧
    ((postFeedback wDb wPostWithFile 100 200 "0.abcdef" (fun _ => none)).inserted).isSome =
      ((postFeedback wDb wPostWithFile 100 200 "0.abcdef"
        (fun _ => some "https://blob/x")).inserted).isSome := by
  have h := C8_amended_per_file_recorded_in_data wDb wPostWithFile 100 200 "0.abcdef"
    (fun _ => none) (by decide) (by decide)
  refine ⟨h.1, ?_, (h.2.2 (fun _ => some "https://blob/x")).1, (h.2.2 (fun _ => some "https://blob/x")).2⟩
  cases hins : (postFeedback wDb wPostWithFile 100 200 "0.abcdef" (fun _ => none)).inserted with
  | none =>
    have hsome : (postFeedback wDb wPostWithFile 100 200 "0.abcdef"
        (fun _ => none)).inserted.isSome = true := rfl
    rw [hins] at hsome
    exact absurd hsome (by decide)
  | some r =>
    exact congrArg some (h.2.1 r hins)
